import Mathlib

/-!
Verification of the `fuzz.py` fuzzing harness (TEAM117-FALL2025-SQA).

The harness is embedded shallowly: the mutable `FuzzReporter` object becomes
explicit state passing, each fuzzing campaign becomes a pure function that
emits the sequence of `log_test` calls it performs, and all external
nondeterminism (random draws and the behaviour of the five target operations
`py_parser.getPythonParseObject`, `py_parser.checkLoggingPerData`,
`mining.days_between`, `mining.getPythonFileCount`,
`lint_engine.getDataLoadCount`, plus filesystem effects) is supplied by an
environment `Env`.  A Python call that may raise is modelled as
`Except PyError PyVal`; an exception that escapes a campaign is returned in
the second component of the campaign's result.
-/

set_option autoImplicit false

/-- A Python runtime value, as far as the harness observes one: it either
forwards values to `log_test` (the `result` argument) or renders them with
`str(...)` inside an f-string. -/
inductive PyVal where
  | none : PyVal
  | int : Int → PyVal
  | str : String → PyVal
  /-- a `datetime` value, identified by its `str()` rendering -/
  | dtv : String → PyVal
  /-- the literal `[]` -/
  | emptyList : PyVal
  /-- the literal `\x7b\x7d` (empty dict) -/
  | emptyDict : PyVal
  /-- an opaque object (e.g. an `ast` tree), identified by its rendering -/
  | obj : String → PyVal
  deriving DecidableEq

/-- Python `str(v)` for the values above. -/
def PyVal.pystr : PyVal → String
  | PyVal.none => "None"
  | PyVal.int n => toString n
  | PyVal.str s => s
  | PyVal.dtv s => s
  | PyVal.emptyList => "[]"
  | PyVal.emptyDict => "\x7b\x7d"
  | PyVal.obj s => s

/-- A raised Python exception as the harness observes it:
`type(e).__name__`, `str(e)` and `traceback.format_exc()`. -/
structure PyError where
  kind : String
  msg : String
  traceback : String
  deriving DecidableEq

/-- Python string slicing `s[:n]` (first `n` characters). -/
def pySlice (s : String) (n : Nat) : String :=
  String.mk (s.toList.take n)

/-- One call to `FuzzReporter.log_test(method_name, input_data, result, error)`. -/
structure LogCall where
  method : String
  input_data : String
  result : Option PyVal
  error : Option PyError
  deriving DecidableEq

/-- A record appended to `bugs_found` (fuzz.py, lines 50-56). -/
structure Bug where
  method : String
  input : String
  error_type : String
  error_msg : String
  traceback : String
  deriving DecidableEq

/-- The state of the `FuzzReporter` object (fuzz.py, lines 37-43). -/
structure FuzzReporter where
  bugs_found : List Bug
  test_count : Nat
  crash_count : Nat
  deriving DecidableEq

/-- `FuzzReporter.__init__` (fuzz.py, lines 40-43). -/
def FuzzReporter.init : FuzzReporter :=
  { bugs_found := [], test_count := 0, crash_count := 0 }

/-- `FuzzReporter.log_test` (fuzz.py, lines 46-57): increments `test_count`;
on an error also increments `crash_count` and appends a bug record whose
input rendering is truncated to 100 characters. -/
def FuzzReporter.log_test (r : FuzzReporter) (method_name : String)
    (input_data : String) (_result : Option PyVal) (error : Option PyError) :
    FuzzReporter :=
  let r := { r with test_count := r.test_count + 1 }
  match error with
  | Option.none => r
  | Option.some e =>
    { r with
      crash_count := r.crash_count + 1,
      bugs_found := r.bugs_found ++
        [{ method := method_name, input := pySlice input_data 100,
           error_type := e.kind, error_msg := e.msg, traceback := e.traceback }] }

/-- Replay a sequence of `log_test` calls against a reporter state. -/
def applyLogs (r : FuzzReporter) (calls : List LogCall) : FuzzReporter :=
  calls.foldl (fun rep c => rep.log_test c.method c.input_data c.result c.error) r

/-- The success-rate computation of `FuzzReporter.generate_report`
(fuzz.py, lines 66 and 91): `(test_count - crash_count) / test_count * 100`.
Python float division raises `ZeroDivisionError` when `test_count = 0`,
modelled as `Option.none`. -/
def FuzzReporter.success_rate (r : FuzzReporter) : Option ℚ :=
  if r.test_count = 0 then Option.none
  else Option.some ((((r.test_count : ℚ) - (r.crash_count : ℚ)) / (r.test_count : ℚ)) * 100)

/-- The `try: result = op(input); log_test(..., result)` /
`except Exception as e: log_test(..., None, e)` pattern that every campaign
wraps around a target-operation call. -/
def mkLog (method inp : String) (res : Except PyError PyVal) : LogCall :=
  match res with
  | Except.ok v =>
    { method := method, input_data := inp, result := Option.some v, error := Option.none }
  | Except.error e =>
    { method := method, input_data := inp, result := Option.none, error := Option.some e }

/-- Environment: all random draws made by the harness and the behaviour of
every external call (target operations and filesystem effects), indexed by
the iteration at which the call happens.  Field prefixes `c1`..`c5` follow
the five campaigns in source order. -/
structure Env where
  /-- campaign 1: code picked by `generate_random_python_code` at iteration `i` -/
  c1_code : Nat → String
  /-- campaign 1: temp-file path returned by `create_temp_python_file` -/
  c1_tmp : Nat → String
  /-- campaign 1: outcome of `py_parser.getPythonParseObject(temp_file)` -/
  c1_parse : Nat → Except PyError PyVal
  /-- campaign 1: `generate_random_string()` for the `i`-th fake path -/
  c1_fakeStr : Nat → String
  /-- campaign 1: outcome of the parser on the `i`-th fake path -/
  c1_fakeParse : Nat → Except PyError PyVal
  /-- campaign 2: code picked from `code_templates` at iteration `i` -/
  c2_code : Nat → String
  /-- campaign 2: outcome of `py_parser.getPythonParseObject(temp_file)` -/
  c2_parse : Nat → Except PyError PyVal
  /-- campaign 2: index of the `random.choice` among the six tracked names -/
  c2_nameIdx : Nat → Fin 6
  /-- campaign 2: `generate_random_string(10)` used in the name list -/
  c2_rand10 : Nat → String
  /-- campaign 2: outcome of `py_parser.checkLoggingPerData(tree, name)` -/
  c2_check : Nat → Except PyError PyVal
  /-- campaign 3: `str()` rendering of the first random date at iteration `i` -/
  c3_d1 : Nat → String
  /-- campaign 3: `str()` rendering of the second random date -/
  c3_d2 : Nat → String
  /-- campaign 3: outcome of `mining.days_between(d1, d2)` on random dates -/
  c3_rand : Nat → Except PyError PyVal
  /-- campaign 3: `str()` of `datetime.now()` in edge pair 2 -/
  c3_now1 : String
  /-- campaign 3: `str()` of `datetime.now()` in edge pair 3 -/
  c3_now2 : String
  /-- campaign 3: `str()` of the first `datetime.now()` in edge pair 8 -/
  c3_now3 : String
  /-- campaign 3: `str()` of the second `datetime.now()` in edge pair 8 -/
  c3_now4 : String
  /-- campaign 3: outcome of `mining.days_between` on the `j`-th edge pair -/
  c3_edge : Nat → Except PyError PyVal
  /-- campaign 4: path returned by `tempfile.mkdtemp()` at iteration `i` -/
  c4_dir : Nat → String
  /-- campaign 4: `random.randint(0, 10)` count of `.py` files created -/
  c4_num_py : Nat → Nat
  /-- campaign 4: `random.randint(0, 5)` count of non-Python files created -/
  c4_num_other : Nat → Nat
  /-- campaign 4: `random.randint(0, 3)` count of `.ipynb` files created -/
  c4_num_ipynb : Nat → Nat
  /-- campaign 4: an exception raised while populating the directory, if any -/
  c4_setup : Nat → Option PyError
  /-- campaign 4: outcome of `mining.getPythonFileCount(temp_dir)` -/
  c4_count : Nat → Except PyError PyVal
  /-- campaign 4: `generate_random_string()` in the `invalid_dirs` list -/
  c4_randdir : String
  /-- campaign 4: outcome of the counter on the `j`-th invalid directory -/
  c4_invalid : Nat → Except PyError PyVal
  /-- campaign 5: code picked from `code_templates` at iteration `i` -/
  c5_code : Nat → String
  /-- campaign 5: temp-file path returned by `create_temp_python_file` -/
  c5_tmp : Nat → String
  /-- campaign 5: outcome of `lint_engine.getDataLoadCount(temp_file)` -/
  c5_count : Nat → Except PyError PyVal
  /-- campaign 5: `generate_random_string()` for the `i`-th fake path -/
  c5_fakeStr : Nat → String
  /-- campaign 5: outcome of the counter on the `i`-th fake path -/
  c5_fakeCount : Nat → Except PyError PyVal

/-- The 94-character population `string.ascii_letters + string.digits +
string.punctuation` used by `generate_random_string` (fuzz.py, line 125). -/
def charPool : List Char :=
  ("abcdefghijklmnopqrstuvwxyzABCDEFGHIJKLMNOPQRSTUVWXYZ"
    ++ "0123456789"
    ++ "!\"#$%&\x27()*+,-./:;<=>?@[\\]^_\x60\x7b|\x7d~").toList

/-- `Fuzzer.generate_random_string` (fuzz.py, lines 121-125).  `draw` models
`random.randint(0, 100)` (used only when no length is given) and `pick j`
models the `j`-th draw of `random.choices` from the population. -/
def generate_random_string (lenArg : Option Nat) (draw : Nat)
    (pick : Nat → Fin charPool.length) : String :=
  let length := match lenArg with
    | Option.none => draw
    | Option.some l => l
  String.mk ((List.range length).map (fun j => charPool.get (pick j)))

/-! ### Campaign 1: `Fuzzer.fuzz_getPythonParseObject` (fuzz.py, lines 163-190) -/

/-- One random iteration of campaign 1 (fuzz.py, lines 166-181). -/
def c1iter (env : Env) (i : Nat) : LogCall :=
  mkLog "getPythonParseObject"
    ("file: " ++ env.c1_tmp i ++ ", content: " ++ pySlice (env.c1_code i) 50)
    (env.c1_parse i)

/-- One fake-path probe of campaign 1 (fuzz.py, lines 184-190). -/
def c1fake (env : Env) (i : Nat) : LogCall :=
  mkLog "getPythonParseObject"
    ("file: " ++ ("/nonexistent/" ++ env.c1_fakeStr i ++ ".py"))
    (env.c1_fakeParse i)

/-- `Fuzzer.fuzz_getPythonParseObject`: `iterations` random probes followed by
five nonexistent-file probes, each logging exactly once. -/
def fuzz_getPythonParseObject (env : Env) (iterations : Int) : List LogCall :=
  (List.range iterations.toNat).map (c1iter env) ++ (List.range 5).map (c1fake env)

/-! ### Campaign 2: `Fuzzer.fuzz_checkLoggingPerData` (fuzz.py, lines 193-227) -/

/-- The list `['data', 'test_var', generate_random_string(10), '', None, 123]`
from which `name_to_track` is chosen (fuzz.py, lines 211-218). -/
def c2_names (env : Env) (i : Nat) : List PyVal :=
  [PyVal.str "data", PyVal.str "test_var", PyVal.str (env.c2_rand10 i),
   PyVal.str "", PyVal.none, PyVal.int 123]

/-- The `random.choice` of `name_to_track` at iteration `i`. -/
def c2NameChoice (env : Env) (i : Nat) : PyVal :=
  (c2_names env i).getD (env.c2_nameIdx i).val PyVal.none

/-- The `UnboundLocalError` raised when the `except` block of
`fuzz_checkLoggingPerData` (fuzz.py, line 222) renders `name_to_track`
before the name was ever assigned. -/
def unboundLocalError : PyError :=
  { kind := "UnboundLocalError",
    msg := "local variable 'name_to_track' referenced before assignment",
    traceback := "" }

/-- The loop body of `fuzz_checkLoggingPerData` (fuzz.py, lines 196-227).
`rem` is the number of remaining iterations, `i` the current index and
`prev` the value `name_to_track` currently holds (`Option.none` while the
local is still unassigned).  When `getPythonParseObject` raises, the handler
evaluates `f"name: {name_to_track}, ..."`: with `prev = Option.none` this
raises `UnboundLocalError`, which escapes the loop (second component). -/
def camp2Loop (env : Env) : Nat → Nat → Option PyVal → List LogCall × Option PyError
  | 0, _, _ => ([], Option.none)
  | Nat.succ rem, i, prev =>
    match env.c2_parse i, prev with
    | Except.error _, Option.none => ([], Option.some unboundLocalError)
    | Except.error e, Option.some nm =>
      let call := mkLog "checkLoggingPerData"
        ("name: " ++ nm.pystr ++ ", code: " ++ pySlice (env.c2_code i) 50)
        (Except.error e)
      let rest := camp2Loop env rem (i + 1) (Option.some nm)
      (call :: rest.1, rest.2)
    | Except.ok _, _ =>
      let nm := c2NameChoice env i
      let call := mkLog "checkLoggingPerData"
        ("name: " ++ nm.pystr ++ ", code: " ++ pySlice (env.c2_code i) 50)
        (env.c2_check i)
      let rest := camp2Loop env rem (i + 1) (Option.some nm)
      (call :: rest.1, rest.2)

/-- `Fuzzer.fuzz_checkLoggingPerData`: the logged outcomes plus, possibly, an
unhandled exception that aborts the campaign. -/
def fuzz_checkLoggingPerData (env : Env) (iterations : Int) :
    List LogCall × Option PyError :=
  camp2Loop env iterations.toNat 0 Option.none

/-! ### Campaign 3: `Fuzzer.fuzz_days_between` (fuzz.py, lines 230-260) -/

/-- One random iteration of campaign 3 (fuzz.py, lines 233-241). -/
def c3iter (env : Env) (i : Nat) : LogCall :=
  mkLog "days_between"
    ("d1: " ++ env.c3_d1 i ++ ", d2: " ++ env.c3_d2 i)
    (env.c3_rand i)

/-- The `edge_cases` list of `fuzz_days_between` (fuzz.py, lines 244-253). -/
def days_edge_cases (env : Env) : List (PyVal × PyVal) :=
  [(PyVal.none, PyVal.none),
   (PyVal.dtv env.c3_now1, PyVal.none),
   (PyVal.none, PyVal.dtv env.c3_now2),
   (PyVal.str "2020-01-01", PyVal.str "2021-01-01"),
   (PyVal.int 123, PyVal.int 456),
   (PyVal.emptyList, PyVal.emptyDict),
   (PyVal.dtv "1900-01-01 00:00:00", PyVal.dtv "2100-12-31 00:00:00"),
   (PyVal.dtv env.c3_now3, PyVal.dtv env.c3_now4)]

/-- One edge-case probe of campaign 3 (fuzz.py, lines 255-260). -/
def c3edge (env : Env) (j : Nat) : LogCall :=
  let p := (days_edge_cases env).getD j (PyVal.none, PyVal.none)
  mkLog "days_between"
    ("d1: " ++ p.1.pystr ++ ", d2: " ++ p.2.pystr)
    (env.c3_edge j)

/-- `Fuzzer.fuzz_days_between`: `iterations` random probes followed by the
eight edge pairs, each logging exactly once. -/
def fuzz_days_between (env : Env) (iterations : Int) : List LogCall :=
  (List.range iterations.toNat).map (c3iter env)
    ++ (List.range (days_edge_cases env).length).map (c3edge env)

/-! ### Campaign 4: `Fuzzer.fuzz_getPythonFileCount` (fuzz.py, lines 263-321) -/

/-- One random iteration of campaign 4 (fuzz.py, lines 267-304): populate a
temp directory, call the counter, and log `expected = num_py + num_ipynb`
alongside the returned value; any exception is caught and logged with the
directory only. -/
def c4iter (env : Env) (i : Nat) : LogCall :=
  let temp_dir := env.c4_dir i
  match env.c4_setup i with
  | Option.some e =>
    { method := "getPythonFileCount", input_data := "dir: " ++ temp_dir,
      result := Option.none, error := Option.some e }
  | Option.none =>
    match env.c4_count i with
    | Except.ok v =>
      let expected := env.c4_num_py i + env.c4_num_ipynb i
      { method := "getPythonFileCount",
        input_data := "dir: " ++ temp_dir
          ++ ", py_files: " ++ toString (env.c4_num_py i)
          ++ ", ipynb: " ++ toString (env.c4_num_ipynb i)
          ++ ", expected: " ++ toString expected
          ++ ", got: " ++ v.pystr,
        result := Option.some v, error := Option.none }
    | Except.error e =>
      { method := "getPythonFileCount", input_data := "dir: " ++ temp_dir,
        result := Option.none, error := Option.some e }

/-- The `invalid_dirs` list of `fuzz_getPythonFileCount`
(fuzz.py, lines 307-314). -/
def invalid_dirs (env : Env) : List PyVal :=
  [PyVal.str "/nonexistent/directory", PyVal.str "", PyVal.none,
   PyVal.str env.c4_randdir, PyVal.str "../../../etc", PyVal.str "/dev/null"]

/-- One invalid-directory probe of campaign 4 (fuzz.py, lines 316-321). -/
def c4edge (env : Env) (j : Nat) : LogCall :=
  let dir_path := (invalid_dirs env).getD j PyVal.none
  mkLog "getPythonFileCount" ("dir: " ++ dir_path.pystr) (env.c4_invalid j)

/-- `Fuzzer.fuzz_getPythonFileCount`: `iterations` random probes followed by
the six invalid-directory probes, each logging exactly once. -/
def fuzz_getPythonFileCount (env : Env) (iterations : Int) : List LogCall :=
  (List.range iterations.toNat).map (c4iter env)
    ++ (List.range (invalid_dirs env).length).map (c4edge env)

/-! ### Campaign 5: `Fuzzer.fuzz_getDataLoadCount` (fuzz.py, lines 324-361) -/

/-- One random iteration of campaign 5 (fuzz.py, lines 327-352). -/
def c5iter (env : Env) (i : Nat) : LogCall :=
  mkLog "getDataLoadCount"
    ("file: " ++ env.c5_tmp i ++ ", code: " ++ pySlice (env.c5_code i) 50)
    (env.c5_count i)

/-- One fake-path probe of campaign 5 (fuzz.py, lines 355-361). -/
def c5fake (env : Env) (i : Nat) : LogCall :=
  mkLog "getDataLoadCount"
    ("file: " ++ ("/nonexistent/" ++ env.c5_fakeStr i ++ ".py"))
    (env.c5_fakeCount i)

/-- `Fuzzer.fuzz_getDataLoadCount`: `iterations` random probes followed by
five nonexistent-file probes, each logging exactly once. -/
def fuzz_getDataLoadCount (env : Env) (iterations : Int) : List LogCall :=
  (List.range iterations.toNat).map (c5iter env) ++ (List.range 5).map (c5fake env)

/-- `Fuzzer.run_all_fuzzing` (fuzz.py, lines 363-380): campaigns run in
order; an exception escaping campaign 2 aborts the run (second component),
so campaigns 3-5 and `generate_report` are skipped. -/
def run_all_fuzzing (env : Env) (iterations : Int) : List LogCall × Option PyError :=
  let t1 := fuzz_getPythonParseObject env iterations
  let c2 := fuzz_checkLoggingPerData env iterations
  match c2.2 with
  | Option.some e => (t1 ++ c2.1, Option.some e)
  | Option.none =>
    (t1 ++ c2.1 ++ fuzz_days_between env iterations
      ++ fuzz_getPythonFileCount env iterations
      ++ fuzz_getDataLoadCount env iterations, Option.none)

/-- The reporter state when (and if) `run_all_fuzzing` reaches
`generate_report`. -/
def finalReporter (env : Env) (iterations : Int) : FuzzReporter :=
  applyLogs FuzzReporter.init (run_all_fuzzing env iterations).1

/-! ### Command line and exit status (fuzz.py, lines 24-30 and 383-412) -/

/-- Strip leading and trailing whitespace from a character list. -/
def stripWs (cs : List Char) : List Char :=
  ((cs.dropWhile Char.isWhitespace).reverse.dropWhile Char.isWhitespace).reverse

/-- Parse a nonempty all-digit character list as a natural number. -/
def digitsToNat (cs : List Char) : Option Nat :=
  if cs = [] then Option.none
  else if cs.all Char.isDigit then
    Option.some (cs.foldl (fun acc c => acc * 10 + (c.toNat - 48)) 0)
  else Option.none

/-- Python `int(s)` on an ASCII decimal string: optional surrounding
whitespace, an optional sign, then digits; anything else raises
`ValueError`, modelled as `Option.none`. -/
def pyIntOfString (s : String) : Option Int :=
  match stripWs s.toList with
  | [] => Option.none
  | c :: rest =>
    if c = '-' then (digitsToNat rest).map (fun n => -(n : Int))
    else if c = '+' then (digitsToNat rest).map (fun n => (n : Int))
    else (digitsToNat (c :: rest)).map (fun n => (n : Int))

/-- The iteration-count handling of `main` (fuzz.py, lines 391-398): returns
the chosen count and whether the "Invalid iteration count" warning was
printed.  `argv` includes the program name at index 0. -/
def getIterations (argv : List String) : Int × Bool :=
  match argv.get? 1 with
  | Option.none => (20, false)
  | Option.some a =>
    match pyIntOfString a with
    | Option.some n => (n, false)
    | Option.none => (20, true)

/-- `main` plus the module import guard (fuzz.py, lines 24-30 and 383-412),
reduced to the process exit status: 1 when the target modules cannot be
imported; 1 when an unhandled exception aborts `run_all_fuzzing`; otherwise
1 exactly when at least one crash was logged, else 0. -/
def pymain (importsOk : Bool) (env : Env) (argv : List String) : Nat :=
  if importsOk then
    let iterations := (getIterations argv).1
    match (run_all_fuzzing env iterations).2 with
    | Option.some _ => 1
    | Option.none => if 0 < (finalReporter env iterations).crash_count then 1 else 0
  else 1

/-! ### Sample environments used by witnesses and counterexamples -/

/-- A sample exception raised by a target operation. -/
def sampleErr : PyError :=
  { kind := "OSError", msg := "simulated failure", traceback := "" }

/-- An environment in which every external call succeeds. -/
def okEnv : Env :=
  { c1_code := fun _ => "x = 1 + 2", c1_tmp := fun _ => "/tmp/t0.py",
    c1_parse := fun _ => Except.ok (PyVal.obj "ast.Module"),
    c1_fakeStr := fun _ => "abc",
    c1_fakeParse := fun _ => Except.ok (PyVal.obj "ast.Module"),
    c2_code := fun _ => "logger.info(test_data)",
    c2_parse := fun _ => Except.ok (PyVal.obj "ast.Module"),
    c2_nameIdx := fun _ => (0 : Fin 6), c2_rand10 := fun _ => "qqqqqqqqqq",
    c2_check := fun _ => Except.ok (PyVal.int 0),
    c3_d1 := fun _ => "2020-01-02 00:00:00", c3_d2 := fun _ => "2019-12-31 00:00:00",
    c3_rand := fun _ => Except.ok (PyVal.int 2),
    c3_now1 := "2025-12-01 10:00:00", c3_now2 := "2025-12-01 10:00:01",
    c3_now3 := "2025-12-01 10:00:02", c3_now4 := "2025-12-01 10:00:03",
    c3_edge := fun _ => Except.ok (PyVal.int 0),
    c4_dir := fun _ => "/tmp/d0",
    c4_num_py := fun _ => 3, c4_num_other := fun _ => 2, c4_num_ipynb := fun _ => 1,
    c4_setup := fun _ => Option.none,
    c4_count := fun _ => Except.ok (PyVal.int 7),
    c4_randdir := "zzz",
    c4_invalid := fun _ => Except.ok (PyVal.int 0),
    c5_code := fun _ => "import json", c5_tmp := fun _ => "/tmp/t1.py",
    c5_count := fun _ => Except.ok (PyVal.int 1),
    c5_fakeStr := fun _ => "def",
    c5_fakeCount := fun _ => Except.ok (PyVal.int 0) }

/-- Like `okEnv`, except that `py_parser.getPythonParseObject` raises inside
campaign 2 (its calls in campaign 1 still succeed). -/
def badEnv : Env :=
  { okEnv with c2_parse := fun _ => Except.error sampleErr }

/-- A fixed character-pick function (always the first pool character), used
by concrete witnesses. -/
def pick0 : Nat → Fin charPool.length :=
  fun _ => ⟨0, by decide⟩

/-- The property that one completed run logs every fixed edge-case input of
every campaign exactly once, in corpus order, independently of the
random-iteration count: the run trace decomposes into the five campaign
traces, and dropping each campaign's random prefix leaves exactly its
edge-case logs (campaign 2 has an empty edge corpus). -/
def edgeCorpusOncePerRun (env : Env) (its : Int) : Prop :=
  (run_all_fuzzing env its).1 =
      fuzz_getPythonParseObject env its ++ (fuzz_checkLoggingPerData env its).1
        ++ fuzz_days_between env its ++ fuzz_getPythonFileCount env its
        ++ fuzz_getDataLoadCount env its
    ∧ ((fuzz_getPythonParseObject env its).drop its.toNat).map
        (fun c => (c.method, c.input_data)) =
      (List.range 5).map (fun j =>
        ("getPythonParseObject", "file: " ++ ("/nonexistent/" ++ env.c1_fakeStr j ++ ".py")))
    ∧ ((fuzz_checkLoggingPerData env its).1).drop its.toNat = []
    ∧ ((fuzz_days_between env its).drop its.toNat).map
        (fun c => (c.method, c.input_data)) =
      (days_edge_cases env).map (fun p =>
        ("days_between", "d1: " ++ p.1.pystr ++ ", d2: " ++ p.2.pystr))
    ∧ ((fuzz_getPythonFileCount env its).drop its.toNat).map
        (fun c => (c.method, c.input_data)) =
      (invalid_dirs env).map (fun v => ("getPythonFileCount", "dir: " ++ v.pystr))
    ∧ ((fuzz_getDataLoadCount env its).drop its.toNat).map
        (fun c => (c.method, c.input_data)) =
      (List.range 5).map (fun j =>
        ("getDataLoadCount", "file: " ++ ("/nonexistent/" ++ env.c5_fakeStr j ++ ".py")))

/-! ### Helper lemmas -/

theorem mkLog_method (m i : String) (res : Except PyError PyVal) :
    (mkLog m i res).method = m := by
  cases res <;> rfl

theorem mkLog_input (m i : String) (res : Except PyError PyVal) :
    (mkLog m i res).input_data = i := by
  cases res <;> rfl

theorem log_test_test_count (r : FuzzReporter) (m i : String) (res : Option PyVal)
    (err : Option PyError) :
    (r.log_test m i res err).test_count = r.test_count + 1 := by
  cases err <;> rfl

theorem pySlice_length_le (s : String) (n : Nat) : (pySlice s n).length ≤ n := by
  have h : (pySlice s n).length = (s.toList.take n).length := rfl
  rw [h, List.length_take]
  exact min_le_left _ _

theorem applyLogs_test_count (tr : List LogCall) (r : FuzzReporter) :
    (applyLogs r tr).test_count = r.test_count + tr.length := by
  induction tr generalizing r with
  | nil => rfl
  | cons c tr ih =>
    have h : applyLogs r (c :: tr) =
        applyLogs (r.log_test c.method c.input_data c.result c.error) tr := rfl
    rw [h, ih, log_test_test_count]
    simp [Nat.add_comm, Nat.add_assoc, Nat.add_left_comm]

theorem applyLogs_crash_le (tr : List LogCall) (r : FuzzReporter)
    (h : r.crash_count ≤ r.test_count) :
    (applyLogs r tr).crash_count ≤ (applyLogs r tr).test_count := by
  induction tr generalizing r with
  | nil => exact h
  | cons c tr ih =>
    have hs : applyLogs r (c :: tr) =
        applyLogs (r.log_test c.method c.input_data c.result c.error) tr := rfl
    rw [hs]
    apply ih
    cases herr : c.error with
    | none => simp [FuzzReporter.log_test, herr]; omega
    | some e => simp [FuzzReporter.log_test, herr]; omega

theorem applyLogs_crash_eq_bugs (tr : List LogCall) (r : FuzzReporter)
    (h : r.crash_count = r.bugs_found.length) :
    (applyLogs r tr).crash_count = (applyLogs r tr).bugs_found.length := by
  induction tr generalizing r with
  | nil => exact h
  | cons c tr ih =>
    have hs : applyLogs r (c :: tr) =
        applyLogs (r.log_test c.method c.input_data c.result c.error) tr := rfl
    rw [hs]
    apply ih
    cases herr : c.error with
    | none => simpa [FuzzReporter.log_test, herr] using h
    | some e => simp [FuzzReporter.log_test, herr, h]

theorem applyLogs_bugs_bounded (tr : List LogCall) (r : FuzzReporter)
    (h : ∀ b ∈ r.bugs_found, b.input.length ≤ 100) :
    ∀ b ∈ (applyLogs r tr).bugs_found, b.input.length ≤ 100 := by
  induction tr generalizing r with
  | nil => exact h
  | cons c tr ih =>
    have hs : applyLogs r (c :: tr) =
        applyLogs (r.log_test c.method c.input_data c.result c.error) tr := rfl
    rw [hs]
    apply ih
    cases herr : c.error with
    | none =>
      simpa [FuzzReporter.log_test, herr] using h
    | some e =>
      intro b hb
      simp [FuzzReporter.log_test, herr] at hb
      rcases hb with hb | hb
      · exact h b hb
      · rw [hb]
        exact pySlice_length_le _ _

theorem camp2Loop_complete_of_some (env : Env) :
    ∀ (rem i : Nat) (nm : PyVal),
      (camp2Loop env rem i (Option.some nm)).2 = Option.none := by
  intro rem
  induction rem with
  | zero => intro i nm; rfl
  | succ rem ih =>
    intro i nm
    cases h : env.c2_parse i with
    | error e => simpa [camp2Loop, h] using ih (i + 1) nm
    | ok v => simpa [camp2Loop, h] using ih (i + 1) (c2NameChoice env i)

theorem camp2Loop_length (env : Env) :
    ∀ (rem i : Nat) (prev : Option PyVal),
      (camp2Loop env rem i prev).2 = Option.none →
      (camp2Loop env rem i prev).1.length = rem := by
  intro rem
  induction rem with
  | zero => intro i prev _; rfl
  | succ rem ih =>
    intro i prev hc
    cases h : env.c2_parse i with
    | error e =>
      cases prev with
      | none => simp [camp2Loop, h] at hc
      | some nm =>
        simp only [camp2Loop, h] at hc ⊢
        simpa using ih (i + 1) (Option.some nm) hc
    | ok v =>
      simp only [camp2Loop, h] at hc ⊢
      simpa using ih (i + 1) (Option.some (c2NameChoice env i)) hc

theorem fuzz_getPythonParseObject_length (env : Env) (its : Int) :
    (fuzz_getPythonParseObject env its).length = its.toNat + 5 := by
  simp [fuzz_getPythonParseObject]

theorem fuzz_days_between_length (env : Env) (its : Int) :
    (fuzz_days_between env its).length = its.toNat + 8 := by
  simp [fuzz_days_between, days_edge_cases]

theorem fuzz_getPythonFileCount_length (env : Env) (its : Int) :
    (fuzz_getPythonFileCount env its).length = its.toNat + 6 := by
  simp [fuzz_getPythonFileCount, invalid_dirs]

theorem fuzz_getDataLoadCount_length (env : Env) (its : Int) :
    (fuzz_getDataLoadCount env its).length = its.toNat + 5 := by
  simp [fuzz_getDataLoadCount]

theorem run_trace_of_complete (env : Env) (its : Int)
    (h : (run_all_fuzzing env its).2 = Option.none) :
    (run_all_fuzzing env its).1 =
      fuzz_getPythonParseObject env its ++ (fuzz_checkLoggingPerData env its).1
        ++ fuzz_days_between env its ++ fuzz_getPythonFileCount env its
        ++ fuzz_getDataLoadCount env its := by
  cases hc2 : (fuzz_checkLoggingPerData env its).2 with
  | none => simp [run_all_fuzzing, hc2, List.append_assoc]
  | some e => simp [run_all_fuzzing, hc2] at h

theorem camp2_complete_of_run_complete (env : Env) (its : Int)
    (h : (run_all_fuzzing env its).2 = Option.none) :
    (fuzz_checkLoggingPerData env its).2 = Option.none := by
  cases hc2 : (fuzz_checkLoggingPerData env its).2 with
  | none => rfl
  | some e => simp [run_all_fuzzing, hc2] at h

theorem run_trace_length (env : Env) (its : Int)
    (h : (run_all_fuzzing env its).2 = Option.none) :
    (run_all_fuzzing env its).1.length = 5 * its.toNat + 24 := by
  rw [run_trace_of_complete env its h]
  have h2 : (fuzz_checkLoggingPerData env its).1.length = its.toNat :=
    camp2Loop_length env its.toNat 0 Option.none
      (camp2_complete_of_run_complete env its h)
  simp [fuzz_getPythonParseObject_length, fuzz_days_between_length,
    fuzz_getPythonFileCount_length, fuzz_getDataLoadCount_length, h2]
  omega

/-- Dropping the random prefix of `prefixList ++ suffixList` when the prefix
is a `List.range`-map of the iteration count. -/
theorem drop_range_map {α : Type} (n : Nat) (f : Nat → α) (l : List α) :
    ((List.range n).map f ++ l).drop n = l := by
  simp [List.drop_left ((List.range n).map f) l]

/-- Mapping over `List.range l.length` with `getD` recovers mapping over the
list itself. -/
theorem range_map_getD {α β : Type} (d : α) (g : α → β) :
    ∀ (l : List α),
      (List.range l.length).map (fun j => g (l.getD j d)) = l.map g := by
  intro l
  induction l with
  | nil => rfl
  | cons a l ih =>
    rw [List.length_cons, List.range_succ_eq_map, List.map_cons, List.map_map]
    simp only [List.getD_cons_zero, List.getD_cons_succ, Function.comp]
    rw [List.map_cons]
    exact congrArg (g a :: ·) ih

theorem c1fake_proj (env : Env) (j : Nat) :
    ((c1fake env j).method, (c1fake env j).input_data) =
      ("getPythonParseObject", "file: " ++ ("/nonexistent/" ++ env.c1_fakeStr j ++ ".py")) := by
  simp [c1fake, mkLog_method, mkLog_input]

theorem c3edge_proj (env : Env) (j : Nat) :
    ((c3edge env j).method, (c3edge env j).input_data) =
      ("days_between",
        "d1: " ++ ((days_edge_cases env).getD j (PyVal.none, PyVal.none)).1.pystr
          ++ ", d2: " ++ ((days_edge_cases env).getD j (PyVal.none, PyVal.none)).2.pystr) := by
  simp [c3edge, mkLog_method, mkLog_input]

theorem c4edge_proj (env : Env) (j : Nat) :
    ((c4edge env j).method, (c4edge env j).input_data) =
      ("getPythonFileCount", "dir: " ++ ((invalid_dirs env).getD j PyVal.none).pystr) := by
  simp [c4edge, mkLog_method, mkLog_input]

theorem c5fake_proj (env : Env) (j : Nat) :
    ((c5fake env j).method, (c5fake env j).input_data) =
      ("getDataLoadCount", "file: " ++ ("/nonexistent/" ++ env.c5_fakeStr j ++ ".py")) := by
  simp [c5fake, mkLog_method, mkLog_input]

theorem edge_proj_c1 (env : Env) (its : Int) :
    ((fuzz_getPythonParseObject env its).drop its.toNat).map
        (fun c => (c.method, c.input_data)) =
      (List.range 5).map (fun j =>
        ("getPythonParseObject", "file: " ++ ("/nonexistent/" ++ env.c1_fakeStr j ++ ".py"))) := by
  rw [fuzz_getPythonParseObject, drop_range_map, List.map_map]
  apply List.map_congr_left
  intro j _
  exact c1fake_proj env j

theorem edge_proj_c3 (env : Env) (its : Int) :
    ((fuzz_days_between env its).drop its.toNat).map
        (fun c => (c.method, c.input_data)) =
      (days_edge_cases env).map (fun p =>
        ("days_between", "d1: " ++ p.1.pystr ++ ", d2: " ++ p.2.pystr)) := by
  rw [fuzz_days_between, drop_range_map, List.map_map]
  rw [show ((fun c : LogCall => (c.method, c.input_data)) ∘ c3edge env) =
      (fun j => (("days_between",
        "d1: " ++ ((days_edge_cases env).getD j (PyVal.none, PyVal.none)).1.pystr
          ++ ", d2: " ++ ((days_edge_cases env).getD j (PyVal.none, PyVal.none)).2.pystr)))
    from funext (fun j => c3edge_proj env j)]
  exact range_map_getD (PyVal.none, PyVal.none)
    (fun p => ("days_between", "d1: " ++ p.1.pystr ++ ", d2: " ++ p.2.pystr))
    (days_edge_cases env)

theorem edge_proj_c4 (env : Env) (its : Int) :
    ((fuzz_getPythonFileCount env its).drop its.toNat).map
        (fun c => (c.method, c.input_data)) =
      (invalid_dirs env).map (fun v => ("getPythonFileCount", "dir: " ++ v.pystr)) := by
  rw [fuzz_getPythonFileCount, drop_range_map, List.map_map]
  rw [show ((fun c : LogCall => (c.method, c.input_data)) ∘ c4edge env) =
      (fun j => ("getPythonFileCount", "dir: " ++ ((invalid_dirs env).getD j PyVal.none).pystr))
    from funext (fun j => c4edge_proj env j)]
  exact range_map_getD PyVal.none
    (fun v => ("getPythonFileCount", "dir: " ++ v.pystr)) (invalid_dirs env)

theorem edge_proj_c5 (env : Env) (its : Int) :
    ((fuzz_getDataLoadCount env its).drop its.toNat).map
        (fun c => (c.method, c.input_data)) =
      (List.range 5).map (fun j =>
        ("getDataLoadCount", "file: " ++ ("/nonexistent/" ++ env.c5_fakeStr j ++ ".py"))) := by
  rw [fuzz_getDataLoadCount, drop_range_map, List.map_map]
  apply List.map_congr_left
  intro j _
  exact c5fake_proj env j

theorem finalReporter_test_count (env : Env) (its : Int)
    (h : (run_all_fuzzing env its).2 = Option.none) :
    (finalReporter env its).test_count = 5 * its.toNat + 24 := by
  rw [finalReporter, applyLogs_test_count, run_trace_length env its h]
  simp [FuzzReporter.init]

theorem finalReporter_crash_le (env : Env) (its : Int) :
    (finalReporter env its).crash_count ≤ (finalReporter env its).test_count :=
  applyLogs_crash_le (run_all_fuzzing env its).1 FuzzReporter.init (Nat.le_refl 0)

/-! ### The claims -/

/-- C1: the claim states that every failure raised by an invoked target
operation during a campaign is caught, logged with its kind and message, and
never propagates or aborts the run.  The code violates this: in
`fuzz_checkLoggingPerData` the `except` handler renders `name_to_track`
(fuzz.py, line 222), which is still unassigned when `getPythonParseObject`
raises on the first iteration, so the handler itself raises
`UnboundLocalError`, nothing is logged, and the exception escapes the
campaign.  This theorem evaluates the campaign at such a failing input
(`badEnv`, one iteration): the trace is empty and the campaign aborts. -/
theorem c1_uncaught_failure_aborts :
    fuzz_checkLoggingPerData badEnv 1 = ([], Option.some unboundLocalError) := by
  decide

/-- C3: each `log_test` call increases `test_count` by exactly one, increases
`crash_count` by one exactly when an error is present, never decrements
either counter, and preserves `crash_count ≤ test_count`; consequently after
any sequence of logged outcomes the reporter satisfies
`crash_count ≤ test_count` (with `0 ≤ crash_count` trivially as the counters
are naturals). -/
theorem c3_counter_invariants (r : FuzzReporter) (m i : String)
    (res : Option PyVal) (err : Option PyError) (tr : List LogCall)
    (h : r.crash_count ≤ r.test_count) :
    (r.log_test m i res err).test_count = r.test_count + 1 ∧
    r.crash_count ≤ (r.log_test m i res err).crash_count ∧
    (r.log_test m i res err).crash_count ≤ (r.log_test m i res err).test_count ∧
    (err = Option.none → (r.log_test m i res err).crash_count = r.crash_count) ∧
    (err.isSome = true → (r.log_test m i res err).crash_count = r.crash_count + 1) ∧
    (applyLogs FuzzReporter.init tr).crash_count ≤
      (applyLogs FuzzReporter.init tr).test_count := by
  refine ⟨log_test_test_count r m i res err, ?_, ?_, ?_, ?_,
    applyLogs_crash_le tr FuzzReporter.init (Nat.le_refl 0)⟩
  · cases err <;> simp [FuzzReporter.log_test]
  · cases err <;> simp [FuzzReporter.log_test] <;> omega
  · intro he; subst he; rfl
  · intro hs
    cases err with
    | none => simp at hs
    | some e => rfl

theorem c3_counter_invariants_witness :
    FuzzReporter.init.crash_count ≤ FuzzReporter.init.test_count ∧
    ((FuzzReporter.init.log_test "days_between" "d1: None, d2: None"
        Option.none (Option.some sampleErr)).test_count =
        FuzzReporter.init.test_count + 1 ∧
      FuzzReporter.init.crash_count ≤
        (FuzzReporter.init.log_test "days_between" "d1: None, d2: None"
          Option.none (Option.some sampleErr)).crash_count ∧
      (FuzzReporter.init.log_test "days_between" "d1: None, d2: None"
          Option.none (Option.some sampleErr)).crash_count ≤
        (FuzzReporter.init.log_test "days_between" "d1: None, d2: None"
          Option.none (Option.some sampleErr)).test_count ∧
      (Option.some sampleErr = Option.none →
        (FuzzReporter.init.log_test "days_between" "d1: None, d2: None"
          Option.none (Option.some sampleErr)).crash_count =
          FuzzReporter.init.crash_count) ∧
      ((Option.some sampleErr).isSome = true →
        (FuzzReporter.init.log_test "days_between" "d1: None, d2: None"
          Option.none (Option.some sampleErr)).crash_count =
          FuzzReporter.init.crash_count + 1) ∧
      (applyLogs FuzzReporter.init [c1iter okEnv 0]).crash_count ≤
        (applyLogs FuzzReporter.init [c1iter okEnv 0]).test_count) :=
  ⟨by decide,
    c3_counter_invariants FuzzReporter.init "days_between" "d1: None, d2: None"
      Option.none (Option.some sampleErr) [c1iter okEnv 0] (by decide)⟩

/-- C4 counterexample: in the run over `badEnv` with random-iteration count 1
the parse failure at the first iteration of campaign 2 aborts the run with an
unhandled `UnboundLocalError`, so only the 6 outcomes of campaign 1 are
logged — not 5·1 + 24 = 29 as the claim requires for every run. -/
theorem c4_total_cx :
    (finalReporter badEnv 1).test_count = 6 ∧
    (6 : Nat) ≠ 5 * (1 : Int).toNat + 24 ∧
    (run_all_fuzzing badEnv 1).2 = Option.some unboundLocalError := by
  decide

/-- C4 (amended): in every run that completes without an unhandled harness
error, the final number of logged outcomes equals the sum over the five
campaigns of the random-iteration count plus that campaign's fixed edge-case
corpus size (5 + 0 + 8 + 6 + 5), i.e. `5·N + 24`. -/
theorem c4_total_logged (env : Env) (its : Int)
    (h : (run_all_fuzzing env its).2 = Option.none) :
    (finalReporter env its).test_count = 5 * its.toNat + 24 :=
  finalReporter_test_count env its h

theorem c4_total_logged_witness :
    (run_all_fuzzing okEnv 1).2 = Option.none ∧
    (finalReporter okEnv 1).test_count = 5 * (1 : Int).toNat + 24 :=
  ⟨by decide, c4_total_logged okEnv 1 (by decide)⟩

/-- C6: in the directory file-count campaign, when populating a directory
with `p` source files, `q` non-matching files and `r` notebook files and the
counter returns a value `v`, the expected count recorded in the log is
`p + r` (independent of `q`), the returned value is recorded as data with no
error, and logging this outcome leaves `crash_count` unchanged whatever `v`
is. -/
theorem c6_expected_count (env : Env) (i p q r : Nat) (v : PyVal)
    (hp : env.c4_num_py i = p) (_hq : env.c4_num_other i = q)
    (hr : env.c4_num_ipynb i = r) (hs : env.c4_setup i = Option.none)
    (hc : env.c4_count i = Except.ok v) (rep : FuzzReporter) :
    c4iter env i =
      { method := "getPythonFileCount",
        input_data := "dir: " ++ env.c4_dir i ++ ", py_files: " ++ toString p
          ++ ", ipynb: " ++ toString r ++ ", expected: " ++ toString (p + r)
          ++ ", got: " ++ v.pystr,
        result := Option.some v, error := Option.none } ∧
    (rep.log_test (c4iter env i).method (c4iter env i).input_data
        (c4iter env i).result (c4iter env i).error).crash_count =
      rep.crash_count := by
  have h1 : c4iter env i =
      { method := "getPythonFileCount",
        input_data := "dir: " ++ env.c4_dir i ++ ", py_files: " ++ toString p
          ++ ", ipynb: " ++ toString r ++ ", expected: " ++ toString (p + r)
          ++ ", got: " ++ v.pystr,
        result := Option.some v, error := Option.none } := by
    simp [c4iter, hs, hc, hp, hr]
  refine ⟨h1, ?_⟩
  rw [h1]
  rfl

theorem c6_expected_count_witness :
    okEnv.c4_num_py 0 = 3 ∧ okEnv.c4_num_other 0 = 2 ∧
    okEnv.c4_num_ipynb 0 = 1 ∧ okEnv.c4_setup 0 = Option.none ∧
    okEnv.c4_count 0 = Except.ok (PyVal.int 7) ∧
    (c4iter okEnv 0 =
      { method := "getPythonFileCount",
        input_data := "dir: " ++ okEnv.c4_dir 0 ++ ", py_files: " ++ toString 3
          ++ ", ipynb: " ++ toString 1 ++ ", expected: " ++ toString (3 + 1)
          ++ ", got: " ++ (PyVal.int 7).pystr,
        result := Option.some (PyVal.int 7), error := Option.none } ∧
     (FuzzReporter.init.log_test (c4iter okEnv 0).method
        (c4iter okEnv 0).input_data (c4iter okEnv 0).result
        (c4iter okEnv 0).error).crash_count = FuzzReporter.init.crash_count) :=
  ⟨by decide, by decide, by decide, by decide, rfl,
    c6_expected_count okEnv 0 3 2 1 (PyVal.int 7) (by decide) (by decide)
      (by decide) (by decide) rfl FuzzReporter.init⟩

/-- C8 counterexample: the claim states that a missing argument falls back to
the default of 20 *with a warning*.  With no argument (`argv = ["fuzz.py"]`)
the code takes the `len(sys.argv) > 1` branch silently: the count is 20 but
no "Invalid iteration count" warning is printed. -/
theorem c8_fallback_cx :
    (["fuzz.py"] : List String).get? 1 = Option.none ∧
    getIterations ["fuzz.py"] = (20, false) ∧
    getIterations ["fuzz.py"] ≠ (20, true) := by
  decide

/-- C8 (amended): a non-numeric iteration-count argument falls back to the
default of 20 with the "Invalid iteration count" warning; a missing argument
falls back to 20 silently; in neither case does argument handling raise
(`getIterations` is total). -/
theorem c8_fallback (argv argv' : List String) (a : String)
    (h1 : argv.get? 1 = Option.some a) (h2 : pyIntOfString a = Option.none)
    (h3 : argv'.get? 1 = Option.none) :
    getIterations argv = (20, true) ∧ getIterations argv' = (20, false) := by
  simp only [List.get?_eq_getElem?] at h1 h3
  constructor
  · simp [getIterations, h1, h2]
  · simp [getIterations, h3]

theorem c8_fallback_witness :
    getIterations ["fuzz.py", "twenty"] = (20, true) ∧
    getIterations ["fuzz.py"] = (20, false) :=
  c8_fallback ["fuzz.py", "twenty"] ["fuzz.py"] "twenty"
    (by decide) (by decide) (by decide)

/-- C10: after any sequence of `log_test` calls starting from a fresh
reporter, `crash_count` equals the length of `bugs_found` (a bug record is
appended exactly when a failure is logged), and every stored bug's input
rendering is truncated to at most 100 characters. -/
theorem c10_crash_matches_bugs (tr : List LogCall) :
    (applyLogs FuzzReporter.init tr).crash_count =
      (applyLogs FuzzReporter.init tr).bugs_found.length ∧
    (applyLogs FuzzReporter.init tr).bugs_found.all
      (fun b => decide (b.input.length ≤ 100)) = true := by
  refine ⟨applyLogs_crash_eq_bugs tr FuzzReporter.init rfl, ?_⟩
  rw [List.all_eq_true]
  intro b hb
  exact decide_eq_true
    (applyLogs_bugs_bounded tr FuzzReporter.init
      (by intro b' hb'; simp [FuzzReporter.init] at hb') b hb)

/-- C2: when the reporter finalizes (which happens only at the end of a
completed run, where at least the 24 edge-case outcomes have been logged),
`test_count > 0`, the success rate is computed as
`(test_count − crash_count) / test_count × 100` without dividing by zero,
and the resulting rate lies between 0 and 100 inclusive. -/
theorem c2_success_rate_bounded (env : Env) (its : Int)
    (h : (run_all_fuzzing env its).2 = Option.none) :
    0 < (finalReporter env its).test_count ∧
    (finalReporter env its).success_rate =
      Option.some ((((finalReporter env its).test_count : ℚ) -
          ((finalReporter env its).crash_count : ℚ)) /
        ((finalReporter env its).test_count : ℚ) * 100) ∧
    0 ≤ (((finalReporter env its).test_count : ℚ) -
          ((finalReporter env its).crash_count : ℚ)) /
        ((finalReporter env its).test_count : ℚ) * 100 ∧
    (((finalReporter env its).test_count : ℚ) -
          ((finalReporter env its).crash_count : ℚ)) /
        ((finalReporter env its).test_count : ℚ) * 100 ≤ 100 := by
  have htot : (finalReporter env its).test_count = 5 * its.toNat + 24 :=
    finalReporter_test_count env its h
  have hle : (finalReporter env its).crash_count ≤ (finalReporter env its).test_count :=
    finalReporter_crash_le env its
  have hpos : 0 < (finalReporter env its).test_count := by omega
  have hT : (0 : ℚ) < ((finalReporter env its).test_count : ℚ) := by
    exact_mod_cast hpos
  have hF : ((finalReporter env its).crash_count : ℚ) ≤
      ((finalReporter env its).test_count : ℚ) := by
    exact_mod_cast hle
  refine ⟨hpos, ?_, ?_, ?_⟩
  · rw [FuzzReporter.success_rate, if_neg (by omega)]
  · apply mul_nonneg
    · apply div_nonneg
      · linarith
      · linarith
    · norm_num
  · have hone : (((finalReporter env its).test_count : ℚ) -
        ((finalReporter env its).crash_count : ℚ)) /
        ((finalReporter env its).test_count : ℚ) ≤ 1 := by
      rw [div_le_one hT]
      have : (0 : ℚ) ≤ ((finalReporter env its).crash_count : ℚ) := by positivity
      linarith
    calc (((finalReporter env its).test_count : ℚ) -
          ((finalReporter env its).crash_count : ℚ)) /
        ((finalReporter env its).test_count : ℚ) * 100
        ≤ 1 * 100 := by
          apply mul_le_mul_of_nonneg_right hone
          norm_num
      _ = 100 := by norm_num

theorem c2_success_rate_bounded_witness :
    (run_all_fuzzing okEnv 1).2 = Option.none ∧
    (0 < (finalReporter okEnv 1).test_count ∧
     (finalReporter okEnv 1).success_rate =
       Option.some ((((finalReporter okEnv 1).test_count : ℚ) -
           ((finalReporter okEnv 1).crash_count : ℚ)) /
         ((finalReporter okEnv 1).test_count : ℚ) * 100) ∧
     0 ≤ (((finalReporter okEnv 1).test_count : ℚ) -
           ((finalReporter okEnv 1).crash_count : ℚ)) /
         ((finalReporter okEnv 1).test_count : ℚ) * 100 ∧
     (((finalReporter okEnv 1).test_count : ℚ) -
           ((finalReporter okEnv 1).crash_count : ℚ)) /
         ((finalReporter okEnv 1).test_count : ℚ) * 100 ≤ 100) :=
  ⟨by decide, c2_success_rate_bounded okEnv 1 (by decide)⟩

/-- C5 counterexample: in the run over `badEnv` with random-iteration count 1
campaign 2 aborts the run before the date-delta campaign is reached, so the
eight date-delta edge pairs — part of the fixed edge-case corpus the claim
says is always logged exactly once — produce no log entry at all. -/
theorem c5_edge_cx :
    (days_edge_cases badEnv).length = 8 ∧
    (run_all_fuzzing badEnv 1).1.countP
      (fun c => c.method == "days_between") = 0 := by
  decide

/-- C5 (amended): in every run that completes without an unhandled harness
error, each input of every campaign's fixed edge-case corpus is invoked and
logged exactly once, in corpus order, independent of the random-iteration
count (`edgeCorpusOncePerRun`). -/
theorem c5_edge_logged_once (env : Env) (its : Int)
    (h : (run_all_fuzzing env its).2 = Option.none) :
    edgeCorpusOncePerRun env its := by
  refine ⟨run_trace_of_complete env its h, edge_proj_c1 env its, ?_,
    edge_proj_c3 env its, edge_proj_c4 env its, edge_proj_c5 env its⟩
  have h2 : (fuzz_checkLoggingPerData env its).1.length = its.toNat :=
    camp2Loop_length env its.toNat 0 Option.none
      (camp2_complete_of_run_complete env its h)
  exact List.drop_eq_nil_of_le (Nat.le_of_eq h2)

theorem c5_edge_logged_once_witness :
    (run_all_fuzzing okEnv 1).2 = Option.none ∧ edgeCorpusOncePerRun okEnv 1 :=
  ⟨by decide, c5_edge_logged_once okEnv 1 (by decide)⟩

/-- C7 counterexample: the claim states exit status 0 if and only if zero
failures were logged.  Over `badEnv` with one iteration, zero failures are
logged (all campaign-1 calls succeed and the campaign-2 failure is never
logged), yet the process exits with status 1 because the run aborts with an
unhandled `UnboundLocalError`. -/
theorem c7_exit_cx :
    pymain true badEnv ["fuzz.py", "1"] = 1 ∧
    (finalReporter badEnv (getIterations ["fuzz.py", "1"]).1).crash_count = 0 := by
  decide

/-- C7 (amended): the process exit status is 0 iff the target operations
imported, the run completed without an unhandled harness error, and zero
failures were logged; it is 1 when imports fail (no campaign runs), when the
run aborts, or when one or more failures were logged. -/
theorem c7_exit_status (importsOk : Bool) (env : Env) (argv : List String) :
    pymain importsOk env argv = 0 ↔
      (importsOk = true ∧
        (run_all_fuzzing env (getIterations argv).1).2 = Option.none ∧
        (finalReporter env (getIterations argv).1).crash_count = 0) := by
  cases importsOk with
  | false => simp [pymain]
  | true =>
    simp only [pymain, if_true]
    cases hab : (run_all_fuzzing env (getIterations argv).1).2 with
    | none =>
      by_cases hcr : 0 < (finalReporter env (getIterations argv).1).crash_count
      · simp [hab, hcr]
        omega
      · simp [hab, hcr]
        omega
    | some e => simp [hab]

theorem c7_exit_status_witness :
    pymain true okEnv ["fuzz.py", "1"] = 0 ↔
      (true = true ∧
        (run_all_fuzzing okEnv (getIterations ["fuzz.py", "1"]).1).2 = Option.none ∧
        (finalReporter okEnv (getIterations ["fuzz.py", "1"]).1).crash_count = 0) :=
  c7_exit_status true okEnv ["fuzz.py", "1"]

/-- C9: `generate_random_string` always returns a value: with a specified
length it returns exactly that many characters, each drawn from the pool of
letters, digits and punctuation; with no length it returns as many characters
as the `randint(0, 100)` draw, so with draw 0 the empty string results. -/
theorem c9_random_string (lenArg : Option Nat) (l draw : Nat)
    (pick : Nat → Fin charPool.length) (_hdraw : draw ≤ 100) :
    (generate_random_string (Option.some l) draw pick).length = l ∧
    (generate_random_string Option.none draw pick).length = draw ∧
    (generate_random_string lenArg draw pick).toList.all
      (fun c => charPool.contains c) = true ∧
    generate_random_string Option.none 0 pick = "" := by
  refine ⟨?_, ?_, ?_, ?_⟩
  · simp [generate_random_string, String.length]
  · simp [generate_random_string, String.length]
  · have key : ∀ n : Nat,
        ((List.range n).map (fun j => charPool.get (pick j))).all
          (fun c => charPool.contains c) = true := by
      intro n
      rw [List.all_eq_true]
      intro c hc
      rw [List.mem_map] at hc
      obtain ⟨j, _, rfl⟩ := hc
      simp only [List.contains]
      exact List.elem_iff.mpr (charPool.get_mem (pick j).1 (pick j).2)
    cases lenArg with
    | none => exact key draw
    | some l2 => exact key l2
  · rfl

theorem c9_random_string_witness :
    (5 : Nat) ≤ 100 ∧
    ((generate_random_string (Option.some 3) 5 pick0).length = 3 ∧
     (generate_random_string Option.none 5 pick0).length = 5 ∧
     (generate_random_string Option.none 5 pick0).toList.all
       (fun c => charPool.contains c) = true ∧
     generate_random_string Option.none 0 pick0 = "") :=
  ⟨by decide, c9_random_string Option.none 3 5 pick0 (by decide)⟩
